import Mathlib

/-!
Verification of the token-acquisition core of `teams_puppet`
(`src/teams_puppet/__init__.py`).

Python strings are modelled as `List Char`; a string literal `s` of the
source appears as `"s".data`.  Machine-level collaborators (the Selenium
driver, PyJWT) enter the model as explicit parameters: the captured-request
log is a list of snapshots of `driver.requests` (one per poll of a scan
loop), and `jwt.decode(tok, verify_signature False)` followed by a claim
lookup is an oracle function `List Char → Option _` whose `none` case is
`jwt.DecodeError`.
-/

/-- A Python string. -/
abbrev PyStr := List Char

/-- The space character, the separator of `auth_header.split(" ")`. -/
def spaceChar : Char := Char.ofNat 32

/-- Python `s.split(sep)` for a one-character separator: splits at every
occurrence and keeps empty fields, so `"a  b".split(" ") = ["a", "", "b"]`
and `"".split(" ") = [""]`. -/
def splitOnChar (c : Char) : PyStr → List PyStr
  | [] => [[]]
  | x :: xs =>
    let r := splitOnChar c xs
    if x = c then [] :: r
    else
      match r with
      | [] => [[x]]
      | h :: t => (x :: h) :: t

/-- Python substring containment: `sub in s`. -/
def pyContains (s sub : PyStr) : Bool := decide (sub <:+: s)

/-- Python `s.endswith(suf)`. -/
def pyEndsWith (s suf : PyStr) : Bool := decide (suf <:+ s)

/-- Python truthiness of an optional string: `None` and `""` are falsy. -/
def pyTruthy : Option PyStr → Bool
  | none => false
  | some s => !s.isEmpty

/-- A captured network request as the scan loops see it: `request.url` and
`request.headers.get('Authorization')` (absent when the header is missing). -/
structure Request where
  url : PyStr
  authHeader : Option PyStr

/-- The audience the primary scan accepts (line 196 of the source). -/
def teamsAudience : PyStr := "https://api.spaces.skype.com".data

/-- The suffix the secondary scan tests `request.url` against (line 236). -/
def lokiSuffix : PyStr := "loki.delve.office.com".data

/-- The scheme word the header checks look for (lines 189 and 240). -/
def bearerWord : PyStr := "Bearer".data

/-- The for-loop of the primary token scan over the freshly arrived requests
(source lines 185-200).  `tok` is the Python local `auth_token`: it is
assigned at line 193, before the audience check, and is never reset, so it
persists across candidates and across polls.  The returned `Bool` is
`auth_token_found`; the loop breaks as soon as it becomes true.  `decodeAud`
models `jwt.decode(auth_token, verify_signature False)` followed by
`payload["aud"]` (`none` = `jwt.DecodeError`; a successfully decoded payload
is assumed to carry an `aud` claim). -/
def teamsForLoop (decodeAud : PyStr → Option PyStr) :
    List Request → Option PyStr → Option PyStr × Bool
  | [], tok => (tok, false)
  | r :: rest, tok =>
    match r.authHeader with
    | none => teamsForLoop decodeAud rest tok
    | some h =>
      if h.isEmpty then teamsForLoop decodeAud rest tok
      else if !pyContains h bearerWord then teamsForLoop decodeAud rest tok
      else
        match splitOnChar spaceChar h with
        | [_, t] =>
          match decodeAud t with
          | some aud =>
            if aud = teamsAudience then (some t, true)
            else teamsForLoop decodeAud rest (some t)
          | none => teamsForLoop decodeAud rest (some t)
        | _ => teamsForLoop decodeAud rest tok

/-- The while-loop of the primary scan (source lines 177-203).  `logs` lists
the full contents of `driver.requests` at each successive poll (the log is
append-only); `cursor` is `last_checked_index`, so each poll examines
`log.drop cursor` and then sets the cursor to the log's length.  The loop
ends when `auth_token_found` is set or the 30 s deadline passes — the end of
`logs` marks the deadline. -/
def teamsScanLoop (decodeAud : PyStr → Option PyStr) :
    List (List Request) → Nat → Option PyStr → Option PyStr
  | [], _, tok => tok
  | log :: rest, cursor, tok =>
    if (teamsForLoop decodeAud (log.drop cursor) tok).2 then
      (teamsForLoop decodeAud (log.drop cursor) tok).1
    else
      teamsScanLoop decodeAud rest log.length
        (teamsForLoop decodeAud (log.drop cursor) tok).1

/-- Source lines 205-207: `if not auth_token: auth_token = None` (Python
truthiness, so an empty-string token also becomes `None`). -/
def normalizeTok (tok : Option PyStr) : Option PyStr :=
  if pyTruthy tok then tok else none

/-- The whole primary token capture: the scan loop started with cursor 0 and
`auth_token = None`, followed by the line 205-207 normalisation. -/
def teamsScan (decodeAud : PyStr → Option PyStr) (logs : List (List Request)) :
    Option PyStr :=
  normalizeTok (teamsScanLoop decodeAud logs 0 none)

/-- The for-loop of the secondary (loki) scan (source lines 235-246): skip
any request whose `url` does not end with the loki suffix, then apply the
same header checks; on a hit, `loki_token` is assigned and
`loki_token_found` is set in the same step. -/
def lokiForLoop : List Request → Option PyStr × Bool
  | [] => (none, false)
  | r :: rest =>
    if !pyEndsWith r.url lokiSuffix then lokiForLoop rest
    else
      match r.authHeader with
      | none => lokiForLoop rest
      | some h =>
        if h.isEmpty then lokiForLoop rest
        else if !pyContains h bearerWord then lokiForLoop rest
        else
          match splitOnChar spaceChar h with
          | [_, t] => (some t, true)
          | _ => lokiForLoop rest

/-- The while-loop of the secondary scan (source lines 229-248), with the
same cursor discipline as the primary loop. -/
def lokiScanLoop : List (List Request) → Nat → Option PyStr
  | [], _ => none
  | log :: rest, cursor =>
    if (lokiForLoop (log.drop cursor)).2 then (lokiForLoop (log.drop cursor)).1
    else lokiScanLoop rest log.length

/-- The whole secondary token capture, started with cursor 0. -/
def lokiScan (logs : List (List Request)) : Option PyStr :=
  lokiScanLoop logs 0

/-- The structural wait/click steps of `fetch_new_tokens`, in program order.
Each is a `WebDriverWait ... .until(...)` or a click that can raise
`TimeoutException`, `NoSuchElementException` or `WebDriverException`. -/
inductive FetchStep
  | navigate
  | emailWait
  | nextClick
  | passwordWait
  | signInClick
  | profileClick
  | viewClick
  deriving DecidableEq

/-- The environment of one fetch attempt: whether constructing the Chrome
driver (source lines 108-118) succeeds, the first structural step (if any)
at which the browser raises one of the three caught exception types, the
successive `driver.requests` snapshots each scan loop polls, and the
audience-decode oracle. -/
structure FetchEnv where
  constructOk : Bool
  failStep : Option FetchStep
  teamsLogs : List (List Request)
  lokiLogs : List (List Request)
  decodeAud : PyStr → Option PyStr

/-- Errors that escape `fetch_new_tokens` uncaught. -/
inductive PyError
  | unboundLocal
  deriving DecidableEq

/-- Whether the attempt's structural failure hits the given step. -/
def failsAt (env : FetchEnv) (s : FetchStep) : Bool := env.failStep = some s

/-- The try-block of `fetch_new_tokens` (source lines 120-248), given a
successfully constructed driver.  `Except.error ()` is a raised
`TimeoutException` / `NoSuchElementException` / `WebDriverException`, all
caught at lines 251-262.  The stay-signed-in probe (lines 157-175) swallows
its own `TimeoutException` and so never fails the attempt; it has no effect
on the returned tokens and is not represented. -/
def fetchTryBody (env : FetchEnv) : Except Unit (Option PyStr × Option PyStr) :=
  if failsAt env FetchStep.navigate then Except.error ()
  else if failsAt env FetchStep.emailWait then Except.error ()
  else if failsAt env FetchStep.nextClick then Except.error ()
  else if failsAt env FetchStep.passwordWait then Except.error ()
  else if failsAt env FetchStep.signInClick then Except.error ()
  else
    let auth_token := teamsScan env.decodeAud env.teamsLogs
    if failsAt env FetchStep.profileClick then Except.error ()
    else if failsAt env FetchStep.viewClick then Except.error ()
    else
      let loki_token := lokiScan env.lokiLogs
      Except.ok (auth_token, loki_token)

/-- `Puppet.fetch_new_tokens` (source lines 99-266).  The first component is
what the call returns or raises; the second counts how many times
`driver.quit()` actually ran.  A caught structural exception sets
`auth_token = None` (lines 254, 258, 262) and leaves `loki_token` at its
current value, which is `None` at every caught throw point, so the except
branch returns `(None, None)`.  When driver construction itself raises, the
handler catches it, but the `finally: driver.quit()` at line 264 then reads
the never-assigned local `driver` and raises `UnboundLocalError`, so the
call raises and quits nothing. -/
def fetch_new_tokens (env : FetchEnv) :
    Except PyError (Option PyStr × Option PyStr) × Nat :=
  if !env.constructOk then (Except.error PyError.unboundLocal, 0)
  else
    match fetchTryBody env with
    | Except.ok r => (Except.ok r, 1)
    | Except.error _ => (Except.ok (none, none), 1)

/-- The two token attributes of a `Puppet` instance. -/
structure PuppetState where
  teams_token : Option PyStr
  loki_token : Option PyStr
  deriving DecidableEq

/-- `Puppet.time_til_expiration` (source lines 86-97), in whole seconds.
`decodeExp` models `jwt.decode(teams_token, verify_signature False)`
followed by `payload['exp']` as an absolute Unix time (`none` =
`jwt.DecodeError`, which the source catches and turns into the -1 s
sentinel). -/
def time_til_expiration (teamsTok : Option PyStr)
    (decodeExp : PyStr → Option Int) (now : Int) : Int :=
  match teamsTok with
  | none => -1
  | some t =>
    if t.isEmpty then -1
    else
      match decodeExp t with
      | some e => e - now
      | none => -1

/-- The refresh guard shared by `check_tokens` (line 67) and `get_token`
(line 77): `not self.teams_token or self.time_til_expiration() <=
datetime.timedelta(minutes=5)`, with the threshold in seconds. -/
def needs_refresh (st : PuppetState) (decodeExp : PyStr → Option Int)
    (now : Int) : Bool :=
  !pyTruthy st.teams_token ||
    decide (time_til_expiration st.teams_token decodeExp now ≤ 300)

/-- `Puppet.check_tokens` (source lines 63-68): when the guard holds it runs
`fetch_new_tokens` and assigns the returned pair to the two attributes,
whatever that pair is; an exception from the fetch propagates before the
assignment, leaving the attributes untouched. -/
def check_tokens (st : PuppetState) (env : FetchEnv)
    (decodeExp : PyStr → Option Int) (now : Int) : Except PyError PuppetState :=
  if needs_refresh st decodeExp now then
    match (fetch_new_tokens env).1 with
    | Except.ok (t, l) => Except.ok ⟨t, l⟩
    | Except.error e => Except.error e
  else
    Except.ok st

/-- The service dispatch at the end of `get_token` (source lines 80-84); a
service other than `"teams"` and `"loki"` falls off the end of the Python
function and yields `None`. -/
def serviceLookup (st : PuppetState) (service : PyStr) : Option PyStr :=
  if service = "teams".data then st.teams_token
  else if service = "loki".data then st.loki_token
  else none

/-- `Puppet.get_token` (source lines 70-84): the same guard and assignment as
`check_tokens`, then the service dispatch on the updated attributes. -/
def get_token (st : PuppetState) (env : FetchEnv)
    (decodeExp : PyStr → Option Int) (now : Int) (service : PyStr) :
    Except PyError (PuppetState × Option PyStr) :=
  if needs_refresh st decodeExp now then
    match (fetch_new_tokens env).1 with
    | Except.ok (t, l) =>
      Except.ok (⟨t, l⟩, serviceLookup ⟨t, l⟩ service)
    | Except.error e => Except.error e
  else
    Except.ok (st, serviceLookup st service)

/-- Program counter of one thread running the guard-then-refresh body shared
by `check_tokens` and `get_token`.  The source takes no lock: the scheduler
thread (`BackgroundScheduler` running `check_tokens`) and a consumer thread
(`get_token`) each first evaluate the refresh guard against the shared
attributes and then, if it held, run `fetch_new_tokens` (which blocks for
seconds on browser I/O, releasing the interpreter lock) and assign the
result.  The two actions of different threads therefore interleave
freely. -/
inductive ThreadPC
  | start
  | fetching
  | finished
  deriving DecidableEq

/-- Shared state of the two-thread interleaving model: the `Puppet` token
attributes, each thread's program counter, and how many `fetch_new_tokens`
runs (browser instances) have started. -/
structure ConcState where
  store : PuppetState
  pc1 : ThreadPC
  pc2 : ThreadPC
  fetches : Nat

/-- Advance one thread of the model by one action.  `fetchResult` is the pair
a fetch run returns (the same for both threads, as in a quiescent
environment). -/
def threadStep (decodeExp : PyStr → Option Int) (now : Int)
    (fetchResult : Option PyStr × Option PyStr) (pc : ThreadPC)
    (store : PuppetState) (fetches : Nat) : ThreadPC × PuppetState × Nat :=
  match pc with
  | ThreadPC.start =>
    if needs_refresh store decodeExp now then (ThreadPC.fetching, store, fetches)
    else (ThreadPC.finished, store, fetches)
  | ThreadPC.fetching =>
    (ThreadPC.finished, ⟨fetchResult.1, fetchResult.2⟩, fetches + 1)
  | ThreadPC.finished => (ThreadPC.finished, store, fetches)

/-- Run a schedule (`true` = thread 1 moves, `false` = thread 2 moves) over
the two-thread model. -/
def runSched (decodeExp : PyStr → Option Int) (now : Int)
    (fetchResult : Option PyStr × Option PyStr) :
    List Bool → ConcState → ConcState
  | [], s => s
  | tid :: rest, s =>
    if tid then
      let r := threadStep decodeExp now fetchResult s.pc1 s.store s.fetches
      runSched decodeExp now fetchResult rest ⟨r.2.1, r.1, s.pc2, r.2.2⟩
    else
      let r := threadStep decodeExp now fetchResult s.pc2 s.store s.fetches
      runSched decodeExp now fetchResult rest ⟨r.2.1, s.pc1, r.1, r.2.2⟩

/-- The schedule in which both threads evaluate the guard before either runs
its fetch: thread 1 guard, thread 2 guard, thread 1 fetch, thread 2 fetch. -/
def bothGuardFirst : List Bool := [true, false, true, false]

/-- The half-open interval `[cursor, |log|)` of positions of
`driver.requests` that each successive poll of the primary scan examines
(`new_requests = driver.requests[last_checked_index:]`, line 184), stopping
after the poll on which `auth_token_found` is set.  The range list mirrors
`teamsScanLoop` exactly. -/
def teamsScanRanges (decodeAud : PyStr → Option PyStr) :
    List (List Request) → Nat → Option PyStr → List (Nat × Nat)
  | [], _, _ => []
  | log :: rest, cursor, tok =>
    (cursor, log.length) ::
      (if (teamsForLoop decodeAud (log.drop cursor) tok).2 then []
       else
         teamsScanRanges decodeAud rest log.length
           (teamsForLoop decodeAud (log.drop cursor) tok).1)

/-- The positions each poll of the secondary scan examines (line 234),
mirroring `lokiScanLoop`. -/
def lokiScanRanges : List (List Request) → Nat → List (Nat × Nat)
  | [], _ => []
  | log :: rest, cursor =>
    (cursor, log.length) ::
      (if (lokiForLoop (log.drop cursor)).2 then []
       else lokiScanRanges rest log.length)

/-- The length of the last `driver.requests` snapshot in `logs`, i.e. the
cursor value the scan loop holds after consuming `logs` (the starting
cursor when `logs` is empty). -/
def lastLen (logs : List (List Request)) (cursor : Nat) : Nat :=
  match logs.getLast? with
  | none => cursor
  | some l => l.length

/-! Concrete inputs used to instantiate the theorems below. -/

/-- An exp oracle under which a token `"A"` decodes with `exp = 0`. -/
def decExpA : PyStr → Option Int := fun t => if t = "A".data then some 0 else none

/-- An exp oracle under which a token `"T"` decodes with `exp = 900`. -/
def decExpT : PyStr → Option Int :=
  fun t => if t = "T".data then some 900 else none

/-- An exp oracle under which every decode raises `jwt.DecodeError`. -/
def decExpNone : PyStr → Option Int := fun _ => none

/-- An aud oracle under which the token `"EVIL"` decodes with an audience
different from the Teams audience, and every other decode fails. -/
def decEvil : PyStr → Option PyStr := fun t =>
  if t = "EVIL".data then some "https://evil.example".data else none

/-- A request bearing a decodable token whose audience is not the Teams
audience. -/
def reqEvilAud : Request :=
  { url := "https://x.example/a".data, authHeader := some "Bearer EVIL".data }

/-- A request whose Authorization header contains `"Bearer"` only as an
inner substring, not as its scheme prefix. -/
def reqXBearer : Request :=
  { url := "https://a.loki.delve.office.com".data,
    authHeader := some "xBearer Y".data }

/-- A loki host matching the spec's host-suffix predicate. -/
def lokiHost : PyStr := "sub.loki.delve.office.com".data

/-- A request to a loki host whose URL carries a path after the host. -/
def reqLokiPath : Request :=
  { url := "https://".data ++ lokiHost ++ "/api".data,
    authHeader := some "Bearer Y".data }

/-- An attempt whose browser raises a structural timeout while waiting for
the password field (source line 141). -/
def envPwFail : FetchEnv :=
  { constructOk := true, failStep := some FetchStep.passwordWait,
    teamsLogs := [], lokiLogs := [], decodeAud := fun _ => none }

/-- An attempt whose Chrome driver construction raises. -/
def envCF : FetchEnv :=
  { constructOk := false, failStep := none, teamsLogs := [], lokiLogs := [],
    decodeAud := fun _ => none }

/-- A clean attempt whose only captured request carries the wrong-audience
bearer token of `reqEvilAud`. -/
def envEvilAud : FetchEnv :=
  { constructOk := true, failStep := none, teamsLogs := [[reqEvilAud]],
    lokiLogs := [], decodeAud := decEvil }

/-- The pair a successful fetch returns in the concurrency scenarios. -/
def fetchedPair : Option PyStr × Option PyStr := (some "T".data, some "L".data)

/-! Helper lemmas shared by several results. -/

/-- Any structural failure at one of the guarded steps of a constructed
session makes `fetch_new_tokens` return `(None, None)`: the handlers at
lines 251-262 set `auth_token = None`, and `loki_token` is still `None` at
each such throw point. -/
lemma fetch_structural_fail (env : FetchEnv) (s : FetchStep)
    (hc : env.constructOk = true) (hf : env.failStep = some s) :
    (fetch_new_tokens env).1 = Except.ok (none, none) := by
  cases s <;> simp [fetch_new_tokens, fetchTryBody, failsAt, hc, hf]

/-- A header containing the Bearer word is nonempty. -/
lemma pyContains_bearer_ne_nil {h1 : PyStr}
    (hc : pyContains h1 bearerWord = true) : h1.isEmpty = false := by
  cases h1 with
  | nil => exact absurd hc (by decide)
  | cons a l => rfl

/-- Every interval the primary scan emits starts at or after the cursor it
was started from, and is well formed, provided the snapshot lengths grow
monotonically from that cursor (the captured-request log is append-only). -/
lemma teamsScanRanges_lb (d : PyStr → Option PyStr) :
    ∀ (logs : List (List Request)) (cursor : Nat) (tok : Option PyStr),
      List.Chain' (· ≤ ·) (cursor :: logs.map List.length) →
      ∀ p ∈ teamsScanRanges d logs cursor tok, cursor ≤ p.1 ∧ p.1 ≤ p.2 := by
  intro logs
  induction logs with
  | nil => intro cursor tok _ p hp; simp [teamsScanRanges] at hp
  | cons log rest ih =>
    intro cursor tok hch p hp
    rw [List.map_cons, List.chain'_cons] at hch
    obtain ⟨hcl, hch2⟩ := hch
    simp only [teamsScanRanges] at hp
    rcases List.mem_cons.mp hp with heq | htail
    · subst heq; exact ⟨le_refl _, hcl⟩
    · by_cases hb : (teamsForLoop d (log.drop cursor) tok).2
      · rw [if_pos hb] at htail; simp at htail
      · rw [if_neg hb] at htail
        have hres := ih log.length _ hch2 p htail
        exact ⟨le_trans hcl hres.1, hres.2⟩

/-- The intervals of request positions the successive polls of the primary
scan examine are pairwise disjoint: every earlier interval ends at or
before where any later one begins. -/
lemma teamsScanRanges_pairwise (d : PyStr → Option PyStr) :
    ∀ (logs : List (List Request)) (cursor : Nat) (tok : Option PyStr),
      List.Chain' (· ≤ ·) (cursor :: logs.map List.length) →
      List.Pairwise (fun x y => x.2 ≤ y.1) (teamsScanRanges d logs cursor tok) := by
  intro logs
  induction logs with
  | nil => intro cursor tok _; simp [teamsScanRanges]
  | cons log rest ih =>
    intro cursor tok hch
    rw [List.map_cons, List.chain'_cons] at hch
    obtain ⟨hcl, hch2⟩ := hch
    simp only [teamsScanRanges]
    by_cases hb : (teamsForLoop d (log.drop cursor) tok).2
    · rw [if_pos hb]; simp
    · rw [if_neg hb]
      refine List.Pairwise.cons ?_ (ih log.length _ hch2)
      intro y hy
      exact (teamsScanRanges_lb d rest log.length _ hch2 y hy).1

/-- Same lower bound for the secondary scan's intervals. -/
lemma lokiScanRanges_lb :
    ∀ (logs : List (List Request)) (cursor : Nat),
      List.Chain' (· ≤ ·) (cursor :: logs.map List.length) →
      ∀ p ∈ lokiScanRanges logs cursor, cursor ≤ p.1 ∧ p.1 ≤ p.2 := by
  intro logs
  induction logs with
  | nil => intro cursor _ p hp; simp [lokiScanRanges] at hp
  | cons log rest ih =>
    intro cursor hch p hp
    rw [List.map_cons, List.chain'_cons] at hch
    obtain ⟨hcl, hch2⟩ := hch
    simp only [lokiScanRanges] at hp
    rcases List.mem_cons.mp hp with heq | htail
    · subst heq; exact ⟨le_refl _, hcl⟩
    · by_cases hb : (lokiForLoop (log.drop cursor)).2
      · rw [if_pos hb] at htail; simp at htail
      · rw [if_neg hb] at htail
        have hres := ih log.length hch2 p htail
        exact ⟨le_trans hcl hres.1, hres.2⟩

/-- Pairwise disjointness for the secondary scan's intervals. -/
lemma lokiScanRanges_pairwise :
    ∀ (logs : List (List Request)) (cursor : Nat),
      List.Chain' (· ≤ ·) (cursor :: logs.map List.length) →
      List.Pairwise (fun x y => x.2 ≤ y.1) (lokiScanRanges logs cursor) := by
  intro logs
  induction logs with
  | nil => intro cursor _; simp [lokiScanRanges]
  | cons log rest ih =>
    intro cursor hch
    rw [List.map_cons, List.chain'_cons] at hch
    obtain ⟨hcl, hch2⟩ := hch
    simp only [lokiScanRanges]
    by_cases hb : (lokiForLoop (log.drop cursor)).2
    · rw [if_pos hb]; simp
    · rw [if_neg hb]
      refine List.Pairwise.cons ?_ (ih log.length hch2)
      intro y hy
      exact (lokiScanRanges_lb rest log.length hch2 y hy).1

/-- Peeling one snapshot advances the residual cursor of `lastLen`. -/
lemma lastLen_cons (log : List Request) (rest : List (List Request)) (c : Nat) :
    lastLen (log :: rest) c = lastLen rest log.length := by
  cases rest with
  | nil => simp [lastLen]
  | cons a l =>
    simp only [lastLen, List.getLast?_cons_cons]
    cases h : (a :: l).getLast? with
    | none => simp at h
    | some x => rfl

/-- Appending one more poll of an unchanged log (`l` is the last snapshot
already consumed) leaves the primary scan loop's result unchanged: the poll
examines `l.drop l.length = []` requests. -/
lemma teamsScanLoop_append (d : PyStr → Option PyStr) :
    ∀ (logs : List (List Request)) (cursor : Nat) (tok : Option PyStr)
      (l : List Request),
      lastLen logs cursor = l.length →
      teamsScanLoop d (logs ++ [l]) cursor tok = teamsScanLoop d logs cursor tok := by
  intro logs
  induction logs with
  | nil =>
    intro cursor tok l hl
    have hc : cursor = l.length := by simpa [lastLen] using hl
    subst hc
    simp [teamsScanLoop, teamsForLoop, List.drop_length]
  | cons log rest ih =>
    intro cursor tok l hl
    rw [List.cons_append]
    simp only [teamsScanLoop]
    by_cases hb : (teamsForLoop d (log.drop cursor) tok).2
    · rw [if_pos hb, if_pos hb]
    · rw [if_neg hb, if_neg hb]
      refine ih log.length _ l ?_
      rw [← lastLen_cons log rest cursor]; exact hl

/-- The analogous no-op poll for the secondary scan loop. -/
lemma lokiScanLoop_append :
    ∀ (logs : List (List Request)) (cursor : Nat) (l : List Request),
      lastLen logs cursor = l.length →
      lokiScanLoop (logs ++ [l]) cursor = lokiScanLoop logs cursor := by
  intro logs
  induction logs with
  | nil =>
    intro cursor l hl
    have hc : cursor = l.length := by simpa [lastLen] using hl
    subst hc
    simp [lokiScanLoop, lokiForLoop, List.drop_length]
  | cons log rest ih =>
    intro cursor l hl
    rw [List.cons_append]
    simp only [lokiScanLoop]
    by_cases hb : (lokiForLoop (log.drop cursor)).2
    · rw [if_pos hb, if_pos hb]
    · rw [if_neg hb, if_neg hb]
      refine ih log.length l ?_
      rw [← lastLen_cons log rest cursor]; exact hl

/-! The claims. -/

/-- C1, counterexample: a puppet holding the pair `("A", "B")` with `"A"`
expired runs a refresh whose attempt times out waiting for the password
field; `check_tokens` completes normally but the stored record is now
`(None, None)`, not the pre-attempt pair — refuting the claim that a failed
refresh leaves the TokenRecord identical to its value before the attempt. -/
theorem failed_refresh_overwrite_cex :
    needs_refresh ⟨some "A".data, some "B".data⟩ decExpA 1000 = true
    ∧ check_tokens ⟨some "A".data, some "B".data⟩ envPwFail decExpA 1000
        = Except.ok ⟨none, none⟩
    ∧ (⟨none, none⟩ : PuppetState) ≠ ⟨some "A".data, some "B".data⟩ :=
  ⟨rfl, rfl, by decide⟩

/-- C1, amended: a refresh attempt that fails with a structural error does
not preserve the prior TokenRecord — `check_tokens` (and `get_token`, via
the same assignment) overwrites both stored tokens with the failed
attempt's result `(None, None)`. -/
theorem failed_refresh_overwrites_record :
    ∀ (st : PuppetState) (env : FetchEnv) (decodeExp : PyStr → Option Int)
      (now : Int) (s : FetchStep),
      needs_refresh st decodeExp now = true →
      env.constructOk = true → env.failStep = some s →
      check_tokens st env decodeExp now = Except.ok ⟨none, none⟩ := by
  intro st env dE now s hn hc hf
  simp [check_tokens, hn, fetch_structural_fail env s hc hf]

/-- C1, witness for the amended theorem at the counterexample's state. -/
theorem failed_refresh_overwrites_record_witness :
    check_tokens ⟨some "A".data, some "B".data⟩ envPwFail decExpA 1000
      = Except.ok ⟨none, none⟩ :=
  failed_refresh_overwrites_record ⟨some "A".data, some "B".data⟩ envPwFail
    decExpA 1000 FetchStep.passwordWait (by decide) rfl rfl

/-- C2: the primary scan can end with a token that never passed the audience
check.  The only captured request carries `Authorization: Bearer EVIL`
where `EVIL` decodes with an audience different from
`https://api.spaces.skype.com`; the deadline passes with
`auth_token_found` still false, yet the scan — and `fetch_new_tokens` —
return `EVIL` as the teams token, because line 193 assigns `auth_token`
before the audience check and nothing resets it.  The code's own
`auth_token_found` flag and its `if not auth_token` guard (lines 205-207)
show the intent the claim states, so this is a slip in the code. -/
theorem primary_scan_returns_unmatched_token :
    teamsScan decEvil [[reqEvilAud]] = some "EVIL".data
    ∧ decEvil "EVIL".data ≠ some teamsAudience
    ∧ (fetch_new_tokens envEvilAud).1 = Except.ok (some "EVIL".data, none) :=
  ⟨rfl, by decide, rfl⟩

/-- C3, counterexample: from an empty store (refresh plainly needed), the
interleaving in which both callers evaluate the refresh guard before either
runs its fetch starts two `fetch_new_tokens` runs — two browser instances,
not the single-flight run the claim asserts. -/
theorem concurrent_refresh_two_fetches_cex :
    (runSched decExpA 0 fetchedPair bothGuardFirst
        ⟨⟨none, none⟩, ThreadPC.start, ThreadPC.start, 0⟩).fetches = 2
    ∧ (2 : Nat) ≠ 1 :=
  ⟨rfl, by decide⟩

/-- C3, amended: the source takes no lock, so there is no single-flight
guarantee — whenever two concurrent callers both evaluate the refresh
guard before either completes its fetch, each runs its own
`fetch_new_tokens` (its own LoginSession / browser instance), and the later
assignment overwrites the earlier one's result. -/
theorem no_single_flight_two_fetches :
    ∀ (st : PuppetState) (decodeExp : PyStr → Option Int) (now : Int)
      (fr : Option PyStr × Option PyStr),
      needs_refresh st decodeExp now = true →
      (runSched decodeExp now fr bothGuardFirst
          ⟨st, ThreadPC.start, ThreadPC.start, 0⟩).fetches = 2 := by
  intro st dE now fr hn
  simp [runSched, bothGuardFirst, threadStep, hn]

/-- C3, witness for the amended theorem from the empty store. -/
theorem no_single_flight_two_fetches_witness :
    (runSched decExpA 0 fetchedPair bothGuardFirst
        ⟨⟨none, none⟩, ThreadPC.start, ThreadPC.start, 0⟩).fetches = 2 :=
  no_single_flight_two_fetches ⟨none, none⟩ decExpA 0 fetchedPair (by decide)

/-- C4, counterexample: the header `xBearer Y` does not start with the
Bearer scheme, yet the scan does not skip the request — it extracts and
returns `Y`, because line 189/240 tests `"Bearer" in auth_header`
(substring containment), not a prefix. -/
theorem bearer_substring_not_prefix_cex :
    lokiScan [[reqXBearer]] = some "Y".data
    ∧ ¬ ("Bearer".data <+: "xBearer Y".data)
    ∧ reqXBearer.authHeader = some "xBearer Y".data :=
  ⟨rfl, by decide, rfl⟩

/-- C4, amended: a token is extracted from an Authorization header iff the
header contains `"Bearer"` anywhere as a substring (not necessarily as its
scheme prefix) and splitting it on single spaces yields exactly two
fields, the second of which becomes the token; a candidate failing either
check — in particular a header with no `"Bearer"` substring at all — is
skipped and the scan continues with the remaining requests. -/
theorem header_check_is_substring_and_arity :
    (∀ (url h1 : PyStr) (rest : List Request),
        pyContains h1 bearerWord = false →
        lokiForLoop ({ url := url, authHeader := some h1 } :: rest)
          = lokiForLoop rest)
    ∧ (∀ (url h1 : PyStr) (rest : List Request),
        (splitOnChar spaceChar h1).length ≠ 2 →
        lokiForLoop ({ url := url, authHeader := some h1 } :: rest)
          = lokiForLoop rest)
    ∧ (∀ (url h1 a t : PyStr) (rest : List Request),
        pyEndsWith url lokiSuffix = true →
        pyContains h1 bearerWord = true →
        splitOnChar spaceChar h1 = [a, t] →
        lokiForLoop ({ url := url, authHeader := some h1 } :: rest)
          = (some t, true))
    ∧ (∀ (d : PyStr → Option PyStr) (url h1 : PyStr) (rest : List Request)
          (tok : Option PyStr),
        pyContains h1 bearerWord = false →
        teamsForLoop d ({ url := url, authHeader := some h1 } :: rest) tok
          = teamsForLoop d rest tok) := by
  refine ⟨?_, ?_, ?_, ?_⟩
  · intro url h1 rest hc
    cases hu : pyEndsWith url lokiSuffix with
    | false => simp [lokiForLoop, hu]
    | true =>
      cases h1 with
      | nil => simp [lokiForLoop, hu]
      | cons a l => simp [lokiForLoop, hu, hc]
  · intro url h1 rest hlen
    cases hu : pyEndsWith url lokiSuffix with
    | false => simp [lokiForLoop, hu]
    | true =>
      cases h1 with
      | nil => simp [lokiForLoop, hu]
      | cons a l =>
        cases hc : pyContains (a :: l) bearerWord with
        | false => simp [lokiForLoop, hu, hc]
        | true =>
          simp only [lokiForLoop, hu, hc, List.isEmpty_cons, Bool.not_true,
            Bool.not_false, Bool.false_eq_true, if_false, if_true]
          cases hs : splitOnChar spaceChar (a :: l) with
          | nil => simp
          | cons x xs =>
            cases xs with
            | nil => simp
            | cons y ys =>
              cases ys with
              | nil => exact absurd (by rw [hs]; rfl) hlen
              | cons z zs => simp
  · intro url h1 a t rest hu hc hs
    have hne := pyContains_bearer_ne_nil hc
    cases h1 with
    | nil => simp at hne
    | cons c0 cs => simp [lokiForLoop, hu, hc, hs]
  · intro d url h1 rest tok hc
    cases h1 with
    | nil => simp [teamsForLoop]
    | cons a l => simp [teamsForLoop, hc]

/-- C4, witness: the amended theorem at concrete headers — `NoScheme Y` is
skipped (no `Bearer` substring), and `xBearer Y` against a loki URL is
accepted with token `Y`. -/
theorem header_check_is_substring_and_arity_witness :
    lokiForLoop [{ url := "https://a.loki.delve.office.com".data,
                   authHeader := some "NoScheme Y".data }] = lokiForLoop []
    ∧ lokiForLoop [reqXBearer] = (some "Y".data, true) := by
  constructor
  · exact header_check_is_substring_and_arity.1
      "https://a.loki.delve.office.com".data "NoScheme Y".data [] (by decide)
  · exact header_check_is_substring_and_arity.2.2.1
      "https://a.loki.delve.office.com".data "xBearer Y".data
      "xBearer".data "Y".data [] (by decide) (by decide) (by decide)

/-- C5, counterexample: a request to host `sub.loki.delve.office.com` (which
ends with the loki suffix) whose URL carries the path `/api` and an
`Authorization: Bearer Y` header is not matched by the secondary scan — it
returns absent, because line 236 tests `request.url.endswith(...)` on the
whole URL string, which the path defeats; the claim says it returns `Y`. -/
theorem loki_url_path_no_match_cex :
    pyEndsWith lokiHost lokiSuffix = true
    ∧ reqLokiPath.url = "https://".data ++ lokiHost ++ "/api".data
    ∧ reqLokiPath.authHeader = some "Bearer Y".data
    ∧ lokiScan [[reqLokiPath]] = none :=
  ⟨by decide, rfl, rfl, rfl⟩

/-- C5, amended: the secondary scan's predicate is a suffix test on the full
URL string, not on the destination host: a request is skipped whenever its
URL does not end with `loki.delve.office.com` (so any path after a loki
host prevents a match), and a request whose whole URL does end with the
suffix and whose header passes the Bearer checks is matched with its
token. -/
theorem loki_match_is_url_suffix :
    (∀ (r : Request) (rest : List Request),
        pyEndsWith r.url lokiSuffix = false →
        lokiForLoop (r :: rest) = lokiForLoop rest)
    ∧ (∀ (url h1 a t : PyStr),
        pyEndsWith url lokiSuffix = true →
        pyContains h1 bearerWord = true →
        splitOnChar spaceChar h1 = [a, t] →
        lokiScan [[{ url := url, authHeader := some h1 }]] = some t) := by
  constructor
  · intro r rest hu
    simp [lokiForLoop, hu]
  · intro url h1 a t hu hc hs
    have hne := pyContains_bearer_ne_nil hc
    cases h1 with
    | nil => simp at hne
    | cons c0 cs =>
      simp [lokiScan, lokiScanLoop, lokiForLoop, hu, hc, hs]

/-- C5, witness: the amended theorem at the counterexample's data — the
pathless loki URL is matched with token `Y`, and the path-carrying URL is
skipped. -/
theorem loki_match_is_url_suffix_witness :
    lokiScan [[{ url := ("https://".data ++ lokiHost),
                 authHeader := some "Bearer Y".data }]] = some "Y".data
    ∧ lokiForLoop [reqLokiPath] = lokiForLoop [] := by
  constructor
  · exact loki_match_is_url_suffix.2 ("https://".data ++ lokiHost)
      "Bearer Y".data "Bearer".data "Y".data (by decide) (by decide) (by decide)
  · exact loki_match_is_url_suffix.1 reqLokiPath [] (by decide)

/-- C6, counterexample: an attempt that fails with a driver-level error
during driver construction does not return `(absent, absent)` —
`fetch_new_tokens` raises `UnboundLocalError` out of its `finally` block
instead of returning. -/
theorem construct_fail_raises_cex :
    (fetch_new_tokens envCF).1 = Except.error PyError.unboundLocal
    ∧ (Except.error PyError.unboundLocal
        : Except PyError (Option PyStr × Option PyStr))
        ≠ Except.ok (none, none) :=
  ⟨rfl, by simp⟩

/-- C6, amended: for an attempt whose driver was constructed, a structural
failure (step timeout, missing element, or driver-level error) at any
guarded step makes `fetch_new_tokens` return `(absent, absent)`; a failure
of driver construction itself instead raises out of the call. -/
theorem structural_fail_returns_absent_pair :
    ∀ (env : FetchEnv) (s : FetchStep),
      env.constructOk = true → env.failStep = some s →
      (fetch_new_tokens env).1 = Except.ok (none, none) :=
  fun env s hc hf => fetch_structural_fail env s hc hf

/-- C6, witness: the amended theorem at the password-timeout attempt. -/
theorem structural_fail_returns_absent_pair_witness :
    (fetch_new_tokens envPwFail).1 = Except.ok (none, none) :=
  structural_fail_returns_absent_pair envPwFail FetchStep.passwordWait rfl rfl

/-- C7: `time_til_expiration` returns the negative sentinel (-1 s, a
negative duration) when no teams token is stored and when the stored
token's payload fails to decode (the `jwt.DecodeError` is caught, never
propagated — the model function is total), and returns `exp − now` for a
present, decodable token. -/
theorem time_til_expiration_spec :
    (∀ (decodeExp : PyStr → Option Int) (now : Int),
        time_til_expiration none decodeExp now = -1)
    ∧ ((-1 : Int) < 0)
    ∧ (∀ (decodeExp : PyStr → Option Int) (now : Int) (t : PyStr),
        t.isEmpty = false → decodeExp t = none →
        time_til_expiration (some t) decodeExp now = -1)
    ∧ (∀ (decodeExp : PyStr → Option Int) (now : Int) (t : PyStr) (e : Int),
        t.isEmpty = false → decodeExp t = some e →
        time_til_expiration (some t) decodeExp now = e - now) := by
  refine ⟨fun _ _ => rfl, by decide, ?_, ?_⟩
  · intro dE now t ht hd
    simp [time_til_expiration, ht, hd]
  · intro dE now t e ht hd
    simp [time_til_expiration, ht, hd]

/-- C7, witness: a token that fails decoding yields -1; a token decoding
with `exp = 900` at `now = 100` yields 800 seconds. -/
theorem time_til_expiration_spec_witness :
    time_til_expiration (some "T".data) decExpNone 0 = -1
    ∧ time_til_expiration (some "T".data) decExpT 100 = 800 := by
  constructor
  · exact time_til_expiration_spec.2.2.1 decExpNone 0 "T".data rfl rfl
  · have h := time_til_expiration_spec.2.2.2 decExpT 100 "T".data 900 rfl rfl
    rw [h]; decide

/-- C8: the browser is released exactly once on every exit path on which the
driver was constructed; but when construction itself raises, the
`finally: driver.quit()` at line 264 reads the never-assigned local
`driver`, raises `UnboundLocalError` out of `fetch_new_tokens`, and
releases nothing — the `try/finally` shape shows release-on-every-path was
the intent, so the claim is right and the code slips on this path. -/
theorem driver_quit_on_exit_paths :
    (fetch_new_tokens envCF).2 = 0
    ∧ (fetch_new_tokens envCF).1 = Except.error PyError.unboundLocal
    ∧ (∀ env : FetchEnv,
        env.constructOk = true → (fetch_new_tokens env).2 = 1) := by
  refine ⟨rfl, rfl, ?_⟩
  intro env hc
  cases h : fetchTryBody env <;> simp [fetch_new_tokens, hc, h]

/-- C8, witness: the exactly-once conjunct at the password-timeout attempt. -/
theorem driver_quit_on_exit_paths_witness :
    (fetch_new_tokens envPwFail).2 = 1 :=
  driver_quit_on_exit_paths.2.2 envPwFail rfl

/-- C9: within one scan run the cursor only advances — the half-open
intervals of request positions the successive polls examine are pairwise
disjoint (every earlier interval ends at or before where any later one
begins), for both the primary and the secondary loop, whenever the
captured-request log lengths grow monotonically; and appending one more
poll of the unchanged log (no new entries since the last snapshot) to
either scan examines no requests and leaves the result unchanged. -/
theorem scan_cursor_monotone_no_rescan :
    (∀ (d : PyStr → Option PyStr) (logs : List (List Request)),
        List.Chain' (· ≤ ·) ((0 : Nat) :: logs.map List.length) →
        List.Pairwise (fun x y => x.2 ≤ y.1) (teamsScanRanges d logs 0 none))
    ∧ (∀ logs : List (List Request),
        List.Chain' (· ≤ ·) ((0 : Nat) :: logs.map List.length) →
        List.Pairwise (fun x y => x.2 ≤ y.1) (lokiScanRanges logs 0))
    ∧ (∀ (d : PyStr → Option PyStr) (logs : List (List Request))
          (l : List Request),
        logs.getLast? = some l →
        teamsScan d (logs ++ [l]) = teamsScan d logs)
    ∧ (∀ (logs : List (List Request)) (l : List Request),
        logs.getLast? = some l →
        lokiScan (logs ++ [l]) = lokiScan logs) := by
  refine ⟨?_, ?_, ?_, ?_⟩
  · intro d logs hch
    exact teamsScanRanges_pairwise d logs 0 none hch
  · intro logs hch
    exact lokiScanRanges_pairwise logs 0 hch
  · intro d logs l hlast
    unfold teamsScan
    rw [teamsScanLoop_append d logs 0 none l (by simp [lastLen, hlast])]
  · intro logs l hlast
    unfold lokiScan
    rw [lokiScanLoop_append logs 0 l (by simp [lastLen, hlast])]

/-- C9, witness: a two-poll growing log gives disjoint examined intervals,
and re-polling an unchanged log leaves the secondary scan's result
unchanged. -/
theorem scan_cursor_monotone_no_rescan_witness :
    List.Pairwise (fun x y => x.2 ≤ y.1)
      (teamsScanRanges decEvil [[reqEvilAud], [reqEvilAud, reqXBearer]] 0 none)
    ∧ lokiScan ([[reqLokiPath]] ++ [[reqLokiPath]]) = lokiScan [[reqLokiPath]] := by
  constructor
  · exact scan_cursor_monotone_no_rescan.1 decEvil
      [[reqEvilAud], [reqEvilAud, reqXBearer]] (by norm_num [List.chain'_cons])
  · exact scan_cursor_monotone_no_rescan.2.2.2 [[reqLokiPath]] [reqLokiPath] rfl

/-- C10: the refresh guard reads only the teams token — with a present teams
token whose time to expiry exceeds the 5-minute threshold, neither
`check_tokens` nor `get_token` refreshes, whatever the loki token holds:
the state is returned unchanged and `get_token("loki")` yields the stored
(possibly absent) loki token. -/
theorem freshness_depends_only_on_teams :
    ∀ (st : PuppetState) (env : FetchEnv) (decodeExp : PyStr → Option Int)
      (now : Int),
      pyTruthy st.teams_token = true →
      300 < time_til_expiration st.teams_token decodeExp now →
      check_tokens st env decodeExp now = Except.ok st
      ∧ get_token st env decodeExp now "loki".data
          = Except.ok (st, st.loki_token) := by
  intro st env dE now ht hexp
  have hn : needs_refresh st dE now = false := by
    simp [needs_refresh, ht]
    omega
  have hs : serviceLookup st "loki".data = st.loki_token := rfl
  constructor
  · simp [check_tokens, hn]
  · simp [get_token, hn, hs]

/-- C10, witness: a fresh teams token (`exp = 900`, `now = 0`) alongside an
absent loki token - no refresh happens even though the attempt environment
would fail, and the absent loki token is returned unchanged. -/
theorem freshness_depends_only_on_teams_witness :
    check_tokens ⟨some "T".data, none⟩ envCF decExpT 0
        = Except.ok ⟨some "T".data, none⟩
    ∧ get_token ⟨some "T".data, none⟩ envCF decExpT 0 "loki".data
        = Except.ok (⟨some "T".data, none⟩, none) :=
  freshness_depends_only_on_teams ⟨some "T".data, none⟩ envCF decExpT 0
    (by decide) (by decide)
